import Mathlib

/-!
Verification development for the ultracivic backend.

Shallow embedding of the session authority, magic-link authority, order
ledger, payment engine and KYC webhook coordinator, translated from
`app/auth/session.py`, `app/auth/magic_link.py`, `app/models/*.py`,
`app/payments/__init__.py` and `app/kyc/__init__.py`.

Conventions of the embedding:
* time instants are natural numbers (seconds); `timedelta(days=d)` is
  `d * 86400`, `timedelta(minutes=5)` is `300`;
* database state is an explicit list of records threaded through each
  operation; SQLAlchemy row mutation followed by commit becomes a keyed
  in-place list update (tokens / stripe ids are unique by DB constraint);
* calls to the remote provider (Stripe) are oracles passed as function
  arguments: `none`/`Option.none` models a raised `StripeError`;
* Python truthiness of an optional string (`if x:`) is `Option.elim x
  false (fun s => s != "")` since both `None` and `""` are falsy.
-/

namespace UltraCivic

/-- Truthiness of `Optional[str]` in Python: `None` and `""` are falsy. -/
def strTruthy : Option String → Bool
  | none => false
  | some s => s != ""

/-! ## Session model (`app/models/session.py`) -/

/-- Mirror of the `Session` row: token, owner, timing fields, active flag. -/
structure Session where
  session_token : String
  user_id : Nat
  created_at : Nat
  expires_at : Nat
  last_accessed_at : Nat
  is_active : Bool
  deriving Repr, DecidableEq

/-- `Session.is_expired`: `datetime.now(timezone.utc) > self.expires_at`. -/
def Session.is_expired (s : Session) (now : Nat) : Bool :=
  decide (now > s.expires_at)

/-- `Session.is_valid`: active and not expired. -/
def Session.is_valid (s : Session) (now : Nat) : Bool :=
  s.is_active && !(s.is_expired now)

/-- `Session.touch`: set `last_accessed_at` to the current time. -/
def Session.touch (s : Session) (now : Nat) : Session :=
  { s with last_accessed_at := now }

/-- `Session.extend_expiration`: set `expires_at` to now plus `days` days. -/
def Session.extend_expiration (s : Session) (now : Nat) (days : Nat) : Session :=
  { s with expires_at := now + days * 86400 }

/-! ## Session service (`app/auth/session.py`) -/

/-- `select(Session).where(Session.session_token == token)` followed by
`scalar_one_or_none` (the token column is unique). -/
def findSession (store : List Session) (tok : String) : Option Session :=
  store.find? (fun s => s.session_token == tok)

/-- `db.delete(session)` for the row holding this (unique) token. -/
def deleteSessionByToken (store : List Session) (tok : String) : List Session :=
  store.filter (fun s => !(s.session_token == tok))

/-- Committing a mutated session row back to the store, keyed by its
unique token. -/
def replaceSession (store : List Session) (tok : String) (s2 : Session) :
    List Session :=
  store.map (fun s => if s.session_token == tok then s2 else s)

/-- `SessionService.get_session_by_token`: look the session up by token,
return `none` (deleting the row) when it is invalid, and touch
`last_accessed_at` exactly when `touch` is true. -/
def get_session_by_token (now : Nat) (store : List Session) (tok : String)
    (touch : Bool) : Option Session × List Session :=
  match findSession store tok with
  | none => (none, store)
  | some s =>
    if !(s.is_valid now) then
      (none, deleteSessionByToken store tok)
    else if touch then
      (some (s.touch now), replaceSession store tok (s.touch now))
    else
      (some s, store)

/-- `SessionService.extend_session`: resolve without touching, then push
the expiry forward from now. -/
def extend_session (now : Nat) (store : List Session) (tok : String)
    (days : Nat) : Bool × List Session :=
  match get_session_by_token now store tok false with
  | (none, store1) => (false, store1)
  | (some s, store1) =>
    (true, replaceSession store1 tok (s.extend_expiration now days))

/-- Concrete session record used by the session witnesses. -/
def sessA : Session where
  session_token := "tokA"
  user_id := 1
  created_at := 0
  expires_at := 100
  last_accessed_at := 0
  is_active := true

/-- Concrete session record used by the C10 witness. -/
def sessB : Session where
  session_token := "tokB"
  user_id := 2
  created_at := 0
  expires_at := 100
  last_accessed_at := 0
  is_active := true

/-! ## User model (`app/models/user.py`) -/

/-- Mirror of `KYCStatus`. -/
inductive KYCStatus
  | unverified
  | pending
  | verified
  | failed
  deriving Repr, DecidableEq

/-- Mirror of the `User` row: identity plus the fields the auth and KYC
flows read and write. -/
structure User where
  id : Nat
  email : String
  is_active : Bool
  is_verified : Bool
  kyc_status : KYCStatus
  stripe_verification_session_id : Option String
  deriving Repr, DecidableEq

/-- `db.get(User, user_id)` over an explicit user table. -/
def findUser (users : List User) (uid : Nat) : Option User :=
  users.find? (fun u => u.id == uid)

/-! ## Magic link model (`app/models/magic_link.py`) -/

/-- Mirror of the `MagicLink` row. -/
structure MagicLink where
  token : String
  user_id : Nat
  created_at : Nat
  expires_at : Nat
  used_at : Option Nat
  ip_address : Option String
  user_agent : Option String
  is_used : Bool
  redirect_url : Option String
  deriving Repr, DecidableEq

/-- `MagicLink.is_expired`: `datetime.now(timezone.utc) > self.expires_at`. -/
def MagicLink.is_expired (ml : MagicLink) (now : Nat) : Bool :=
  decide (now > ml.expires_at)

/-! ## Magic link service (`app/auth/magic_link.py`) -/

/-- Combined state seen by the magic-link authority: the user table and
the magic-link table. -/
structure AuthState where
  users : List User
  links : List MagicLink
  deriving Repr, DecidableEq

/-- `select(MagicLink).where(MagicLink.token == token)` followed by
`scalar_one_or_none` (the token column is unique). -/
def findMagicLink (st : AuthState) (tok : String) : Option MagicLink :=
  st.links.find? (fun l => l.token == tok)

/-- `db.delete(magic_link)` for the row holding this (unique) token. -/
def deleteMagicLink (st : AuthState) (tok : String) : AuthState :=
  { st with links := st.links.filter (fun l => !(l.token == tok)) }

/-- Committing the `is_used = True` / `used_at = now` mutation of the
found row, keyed by its unique token. -/
def markLinkUsed (links : List MagicLink) (tok : String) (now : Nat) :
    List MagicLink :=
  links.map (fun l =>
    if l.token == tok then { l with is_used := true, used_at := some now } else l)

/-- Committing the `is_verified = True` mutation of the owning user. -/
def markUserVerified (users : List User) (uid : Nat) : List User :=
  users.map (fun u => if u.id == uid then { u with is_verified := true } else u)

/-- `MagicLinkService.validate_and_redeem_token`: look the link up by
token; fail uniformly on not-found / used / expired (deleting an expired
row) / binding mismatch / missing user; on success mark the link used,
mark the user verified and return the user with the stored redirect URL. -/
def validate_and_redeem_token (now : Nat) (st : AuthState) (token : String)
    (req_ip req_ua : Option String) (enforce_ip_binding : Bool) :
    (Option User × Option String) × AuthState :=
  match findMagicLink st token with
  | none => ((none, none), st)
  | some ml =>
    if ml.is_used then
      ((none, none), st)
    else if ml.is_expired now then
      ((none, none), deleteMagicLink st token)
    else if enforce_ip_binding && strTruthy ml.ip_address
        && !(req_ip == ml.ip_address) then
      ((none, none), st)
    else if enforce_ip_binding && strTruthy ml.user_agent
        && !(req_ua == ml.user_agent) then
      ((none, none), st)
    else
      match findUser st.users ml.user_id with
      | none => ((none, none), st)
      | some u =>
        ((some { u with is_verified := true }, ml.redirect_url),
         { users := markUserVerified st.users ml.user_id,
           links := markLinkUsed st.links token now })

/-- `MagicLinkService.cleanup_user_links`: delete every unused link of
this user. -/
def cleanup_user_links (st : AuthState) (uid : Nat) : AuthState :=
  { st with links := st.links.filter (fun l => !(l.user_id == uid && !l.is_used)) }

/-- `MagicLinkService.create_magic_link`: first clean up the user's
unused links, then insert a fresh link (the generated token is passed in
as an argument) expiring five minutes from now. -/
def create_magic_link (now : Nat) (st : AuthState) (user : User)
    (token : String) (client_ip user_agent redirect_url : Option String) :
    MagicLink × AuthState :=
  let st1 := cleanup_user_links st user.id
  let ml : MagicLink :=
    { token := token, user_id := user.id, created_at := now,
      expires_at := now + 300, used_at := none, ip_address := client_ip,
      user_agent := user_agent, is_used := false,
      redirect_url := redirect_url }
  (ml, { st1 with links := st1.links ++ [ml] })

/-- Concrete data for the magic-link witnesses. -/
def userC : User where
  id := 7
  email := "c@example.org"
  is_active := true
  is_verified := false
  kyc_status := KYCStatus.unverified
  stripe_verification_session_id := none

/-- Concrete unused magic link owned by `userC`. -/
def linkC : MagicLink where
  token := "mlC"
  user_id := 7
  created_at := 0
  expires_at := 300
  used_at := none
  ip_address := none
  user_agent := none
  is_used := false
  redirect_url := some "https://example.org/after"

/-- Concrete auth state holding `userC` and `linkC`. -/
def authStC : AuthState where
  users := [userC]
  links := [linkC]

/-! ## Payment models (`app/models/payment.py`) -/

/-- Mirror of `PaymentStatus`, the provider's state vocabulary. -/
inductive PaymentStatus
  | requires_payment_method
  | requires_confirmation
  | requires_action
  | processing
  | requires_capture
  | canceled
  | succeeded
  deriving Repr, DecidableEq

/-- Mirror of `OrderStatus`. -/
inductive OrderStatus
  | draft
  | payment_pending
  | payment_authorized
  | kyc_pending
  | processing
  | completed
  | failed
  | canceled
  deriving Repr, DecidableEq

/-- Position of a payment status in the forward vocabulary
`requires_payment_method → requires_confirmation → requires_action →
processing → requires_capture → terminal`, used to state the
forward-only invariant of C5. -/
def statusRank : PaymentStatus → Nat
  | PaymentStatus.requires_payment_method => 0
  | PaymentStatus.requires_confirmation => 1
  | PaymentStatus.requires_action => 2
  | PaymentStatus.processing => 3
  | PaymentStatus.requires_capture => 4
  | PaymentStatus.canceled => 5
  | PaymentStatus.succeeded => 5

/-- Mirror of the `Order` row; money amounts are exact decimals,
embedded as rationals. -/
structure Order where
  id : Nat
  user_id : Nat
  tonnes_co2 : Nat
  amount_usd : Rat
  fee_usd : Rat
  total_usd : Rat
  eth_address : Option String
  tokens_to_mint : Option Rat
  status : OrderStatus
  deriving Repr, DecidableEq

/-- Mirror of the `PaymentIntent` row. -/
structure PaymentIntent where
  order_id : Nat
  stripe_payment_intent_id : String
  client_secret : String
  amount_cents : Int
  currency : String
  status : PaymentStatus
  capture_method : String
  captured_at : Option Nat
  captured_amount_cents : Option Int
  deriving Repr, DecidableEq

/-- Database state shared by the payment service and the KYC webhook
handlers: the user, order and payment-intent tables. -/
structure PayDB where
  users : List User
  orders : List Order
  intents : List PaymentIntent
  deriving Repr, DecidableEq

/-- `db.get(Order, order_id)`. -/
def findOrder (orders : List Order) (oid : Nat) : Option Order :=
  orders.find? (fun o => o.id == oid)

/-- Committing a status mutation of the order row with this id. -/
def setOrderStatus (orders : List Order) (oid : Nat) (s : OrderStatus) :
    List Order :=
  orders.map (fun o => if o.id == oid then { o with status := s } else o)

/-- `select(PaymentIntent).where(order_id == oid, status ==
REQUIRES_CAPTURE)` followed by `scalar_one_or_none`. -/
def findCapturableIntent (intents : List PaymentIntent) (oid : Nat) :
    Option PaymentIntent :=
  intents.find? (fun p =>
    p.order_id == oid && p.status == PaymentStatus.requires_capture)

/-- Committing the mutation of the capturable-intent row found by
`findCapturableIntent` (at most one such row exists per order). -/
def replaceCapturableIntent (intents : List PaymentIntent) (oid : Nat)
    (p2 : PaymentIntent) : List PaymentIntent :=
  intents.map (fun p =>
    if p.order_id == oid && p.status == PaymentStatus.requires_capture
    then p2 else p)

/-- `select(PaymentIntent).where(stripe_payment_intent_id == sid)`
followed by `scalar_one_or_none` (the column is unique). -/
def findIntentByStripeId (intents : List PaymentIntent) (sid : String) :
    Option PaymentIntent :=
  intents.find? (fun p => p.stripe_payment_intent_id == sid)

/-- Committing the mutation of the row with this (unique) stripe id. -/
def replaceIntent (intents : List PaymentIntent) (sid : String)
    (p2 : PaymentIntent) : List PaymentIntent :=
  intents.map (fun p => if p.stripe_payment_intent_id == sid then p2 else p)

/-! ## Payment service (`app/payments/__init__.py`) -/

/-- `PaymentService.PRICE_PER_TONNE_USD`, `Decimal("20.00")`. -/
def PRICE_PER_TONNE_USD : Rat := 20

/-- `PaymentService.FEE_PER_ORDER_USD`, `Decimal("4.00")`. -/
def FEE_PER_ORDER_USD : Rat := 4

/-- `PaymentService.TOKENS_PER_TONNE`, `Decimal("0.3")`. -/
def TOKENS_PER_TONNE : Rat := 3 / 10

/-- `PaymentService.calculate_order_amounts`: `(amount, fee, total)`. -/
def calculate_order_amounts (tonnes_co2 : Nat) : Rat × Rat × Rat :=
  let amount := PRICE_PER_TONNE_USD * tonnes_co2
  let fee := FEE_PER_ORDER_USD
  (amount, fee, amount + fee)

/-- `PaymentService.calculate_tokens_to_mint`. -/
def calculate_tokens_to_mint (tonnes_co2 : Nat) : Rat :=
  TOKENS_PER_TONNE * tonnes_co2

/-- Validation constraints of `OrderRequest.tonnes_co2`: an integer with
`gt=0, le=1000`. -/
def orderRequestValid (tonnes_co2 : Int) : Bool :=
  decide (0 < tonnes_co2) && decide (tonnes_co2 ≤ 1000)

/-- `PaymentService.create_order`: compute the amounts, compute the
token quantity only when a delivery address was supplied, persist with
status `draft`.  The generated row id is passed in as `oid`. -/
def create_order (db : PayDB) (user : User) (oid : Nat) (tonnes_co2 : Nat)
    (eth_address : Option String) : Order × PayDB :=
  let amounts := calculate_order_amounts tonnes_co2
  let order : Order :=
    { id := oid, user_id := user.id, tonnes_co2 := tonnes_co2,
      amount_usd := amounts.1, fee_usd := amounts.2.1,
      total_usd := amounts.2.2, eth_address := eth_address,
      tokens_to_mint :=
        if strTruthy eth_address
        then some (calculate_tokens_to_mint tonnes_co2) else none,
      status := OrderStatus.draft }
  (order, { db with orders := db.orders ++ [order] })

/-- `PaymentService.get_order_by_id`: lookup scoped to the owner. -/
def get_order_by_id (db : PayDB) (oid uid : Nat) : Option Order :=
  db.orders.find? (fun o => o.id == oid && o.user_id == uid)

/-- Result of the remote `stripe.PaymentIntent.create` call; the call
itself is an oracle argument (`none` models a raised `StripeError`). -/
structure StripeIntent where
  id : String
  client_secret : String
  status : PaymentStatus
  deriving Repr, DecidableEq

/-- Errors surfaced by the payment-intent endpoint. -/
inductive ApiError
  | notFound
  | badStatus
  | stripeFailed
  deriving Repr, DecidableEq

/-- The `PaymentIntent` row persisted by
`PaymentService.create_payment_intent` for a given order and remote
result. -/
def mkPaymentIntent (order : Order) (si : StripeIntent) : PaymentIntent :=
  { order_id := order.id, stripe_payment_intent_id := si.id,
    client_secret := si.client_secret,
    amount_cents := (order.total_usd * 100).floor, currency := "usd",
    status := si.status, capture_method := "manual", captured_at := none,
    captured_amount_cents := none }

/-- `PaymentService.create_payment_intent`: call the remote provider;
on success persist the intent row and move the order to
`payment_pending`; a remote failure raises before any write. -/
def create_payment_intent (db : PayDB) (order : Order)
    (remote : Option StripeIntent) :
    Except ApiError PaymentIntent × PayDB :=
  match remote with
  | none => (Except.error ApiError.stripeFailed, db)
  | some si =>
    let pi := mkPaymentIntent order si
    (Except.ok pi,
     { db with intents := db.intents ++ [pi],
               orders := setOrderStatus db.orders order.id
                 OrderStatus.payment_pending })

/-- The `POST /orders/.../payment-intent` route: 404 when the order is
absent or owned by someone else, 400 (client error, no side effects)
when the order is not in `draft`, else delegate to
`create_payment_intent`. -/
def create_payment_intent_endpoint (db : PayDB) (oid uid : Nat)
    (remote : Option StripeIntent) :
    Except ApiError PaymentIntent × PayDB :=
  match get_order_by_id db oid uid with
  | none => (Except.error ApiError.notFound, db)
  | some order =>
    if order.status != OrderStatus.draft then
      (Except.error ApiError.badStatus, db)
    else
      create_payment_intent db order remote

/-- Truthiness of `Optional[int]` in Python: `None` and `0` are falsy. -/
def intTruthy : Option Int → Bool
  | none => false
  | some a => a != 0

/-- `PaymentService.capture_payment_intent`: call the remote capture
(the oracle returns the remote intent's new status, `none` modelling a
`StripeError`); on success mirror the status and stamp the capture
fields; on failure return `False` with no write. -/
def capture_payment_intent (now : Nat) (db : PayDB) (pi : PaymentIntent)
    (amount_cents : Option Int) (remote : Option PaymentStatus) :
    Bool × PayDB :=
  let capture_amount :=
    if intTruthy amount_cents then amount_cents.getD 0 else pi.amount_cents
  match remote with
  | none => (false, db)
  | some s =>
    let pi2 := { pi with
      status := s, captured_at := some now,
      captured_amount_cents := some capture_amount }
    (true,
     { db with
       intents := replaceIntent db.intents pi.stripe_payment_intent_id pi2 })

/-! ## KYC webhook handlers (`app/kyc/__init__.py`) -/

/-- Body of the `for order in orders` loop of `capture_user_payments`:
find the order's capturable intent; if present, attempt the remote
capture; success mirrors the status, stamps the capture fields and moves
the order to `processing`; a `StripeError` marks only this order
`failed`. -/
def captureOrderPayment (now : Nat)
    (captureRemote : String → Option PaymentStatus) (db : PayDB)
    (oid : Nat) : PayDB :=
  match findCapturableIntent db.intents oid with
  | none => db
  | some pi =>
    match captureRemote pi.stripe_payment_intent_id with
    | some s =>
      let pi2 := { pi with
        status := s, captured_at := some now,
        captured_amount_cents := some pi.amount_cents }
      { db with
        intents := replaceCapturableIntent db.intents oid pi2,
        orders := setOrderStatus db.orders oid OrderStatus.processing }
    | none =>
      { db with orders := setOrderStatus db.orders oid OrderStatus.failed }

/-- `capture_user_payments`: iterate over the snapshot of the user's
`payment_authorized` orders, capturing each in turn. -/
def capture_user_payments (now : Nat)
    (captureRemote : String → Option PaymentStatus) (db : PayDB)
    (uid : Nat) : PayDB :=
  let authorized := (db.orders.filter (fun o =>
    o.user_id == uid && o.status == OrderStatus.payment_authorized)).map
    (fun o => o.id)
  authorized.foldl (captureOrderPayment now captureRemote) db

/-- Type tag of an `identity.verification_session.*` event. -/
inductive VerifEventType
  | verified
  | requires_input
  | canceled
  | other
  deriving Repr, DecidableEq

/-- An identity-verification webhook event: type tag, remote session id,
and the parsed `client_reference_id` (`none` models an unparsable id). -/
structure VerifEvent where
  etype : VerifEventType
  session_id : String
  client_reference_id : Option Nat
  deriving Repr, DecidableEq

/-- Acknowledgement payload of `handle_verification_session_event`. -/
inductive VerifResult
  | invalid_client_reference_id
  | user_not_found
  | already_processed
  | updated (status : KYCStatus)
  | unhandled
  deriving Repr, DecidableEq

/-- Committing the KYC-status / session-id mutation of the user row. -/
def setUserKYC (users : List User) (uid : Nat) (ks : KYCStatus)
    (sid : String) : List User :=
  users.map (fun u =>
    if u.id == uid then
      { u with kyc_status := ks, stripe_verification_session_id := some sid }
    else u)

/-- `handle_verification_session_event`: resolve the user from the
correlation id; duplicate `verified` events (matching stored session id,
status already verified) are acknowledged with no writes; otherwise the
event type drives the KYC status, and a `verified` event additionally
triggers `capture_user_payments` for the user. -/
def handle_verification_session_event (now : Nat)
    (captureRemote : String → Option PaymentStatus) (db : PayDB)
    (ev : VerifEvent) : VerifResult × PayDB :=
  match ev.client_reference_id with
  | none => (VerifResult.invalid_client_reference_id, db)
  | some uid =>
    match findUser db.users uid with
    | none => (VerifResult.user_not_found, db)
    | some user =>
      if user.stripe_verification_session_id == some ev.session_id
          && ev.etype == VerifEventType.verified
          && user.kyc_status == KYCStatus.verified then
        (VerifResult.already_processed, db)
      else
        match ev.etype with
        | VerifEventType.verified =>
          let db1 := { db with
            users := setUserKYC db.users uid KYCStatus.verified ev.session_id }
          (VerifResult.updated KYCStatus.verified,
           capture_user_payments now captureRemote db1 uid)
        | VerifEventType.requires_input =>
          (VerifResult.updated KYCStatus.failed,
           { db with
             users := setUserKYC db.users uid KYCStatus.failed ev.session_id })
        | VerifEventType.canceled =>
          (VerifResult.updated KYCStatus.unverified,
           { db with
             users := setUserKYC db.users uid KYCStatus.unverified
               ev.session_id })
        | VerifEventType.other => (VerifResult.unhandled, db)

/-- Type tag of a `payment_intent.*` event. -/
inductive PIEventType
  | requires_capture
  | succeeded
  | canceled
  | payment_failed
  | other
  deriving Repr, DecidableEq

/-- A payment-intent webhook event: type tag, remote intent id, and the
remote intent's reported status (`data.object.status`). -/
structure PIEvent where
  etype : PIEventType
  intent_id : String
  intent_status : PaymentStatus
  deriving Repr, DecidableEq

/-- Acknowledgement payload of `handle_payment_intent_event`. -/
inductive PIResult
  | intent_not_found
  | order_not_found
  | updated
  deriving Repr, DecidableEq

/-- `handle_payment_intent_event`: mirror the event's reported status
onto the stored intent, map the event type onto the order status
(`requires_capture → payment_authorized`, `succeeded → processing` plus
a capture timestamp, `canceled → canceled`, `payment_failed → failed`,
anything else leaves the order alone), then commit both rows. -/
def handle_payment_intent_event (now : Nat) (db : PayDB) (ev : PIEvent) :
    PIResult × PayDB :=
  match findIntentByStripeId db.intents ev.intent_id with
  | none => (PIResult.intent_not_found, db)
  | some pi =>
    match findOrder db.orders pi.order_id with
    | none => (PIResult.order_not_found, db)
    | some _ =>
      let pi2 :=
        if ev.etype == PIEventType.succeeded then
          { pi with status := ev.intent_status, captured_at := some now }
        else
          { pi with status := ev.intent_status }
      let orders2 :=
        match ev.etype with
        | PIEventType.requires_capture =>
          setOrderStatus db.orders pi.order_id OrderStatus.payment_authorized
        | PIEventType.succeeded =>
          setOrderStatus db.orders pi.order_id OrderStatus.processing
        | PIEventType.canceled =>
          setOrderStatus db.orders pi.order_id OrderStatus.canceled
        | PIEventType.payment_failed =>
          setOrderStatus db.orders pi.order_id OrderStatus.failed
        | PIEventType.other => db.orders
      (PIResult.updated,
       { db with intents := replaceIntent db.intents ev.intent_id pi2,
                 orders := orders2 })

/-! ## Webhook ingestion (`app/kyc/__init__.py`) -/

/-- Python `signature.split(",")` for the one-character separator. -/
def splitOnComma : List Char → List (List Char)
  | [] => [[]]
  | ch :: rest =>
    let r := splitOnComma rest
    if ch = ',' then [] :: r
    else
      match r with
      | [] => [[ch]]
      | h :: t => (ch :: h) :: t

/-- Python `element.split("=", 1)`: split at the first `=`; `none` when
the element contains no `=` (such elements are skipped). -/
def splitFirstEq : List Char → Option (List Char × List Char)
  | [] => none
  | ch :: rest =>
    if ch = '=' then some ([], rest)
    else
      match splitFirstEq rest with
      | none => none
      | some kv => some (ch :: kv.1, kv.2)

/-- One step of the header-parsing loop of `verify_webhook_signature`:
a `t=` element records the timestamp (last one wins), a `v`-prefixed key
appends a candidate signature, anything else is skipped. -/
def parseSigElement (acc : Option String × List String) (element : String) :
    Option String × List String :=
  match splitFirstEq element.data with
  | none => acc
  | some kv =>
    if kv.1 = ['t'] then (some (String.mk kv.2), acc.2)
    else
      match kv.1 with
      | 'v' :: _ => (acc.1, acc.2 ++ [String.mk kv.2])
      | _ => acc

/-- The header-parsing loop of `verify_webhook_signature`: split the
header on commas and fold the elements into the optional timestamp and
the candidate-signature list. -/
def parseSigHeader (signature : String) : Option String × List String :=
  ((splitOnComma signature.data).map String.mk).foldl parseSigElement (none, [])

/-- `verify_webhook_signature`: parse the header into a timestamp and
candidate signatures, compute the expected HMAC-SHA256 hex digest over
`"timestamp.payload"` (the HMAC primitive is library code, passed as the
oracle `hm`), and accept iff some candidate equals it (the constant-time
`hmac.compare_digest` is semantically equality). -/
def verify_webhook_signature (hm : String → String → String)
    (payload : String) (signature : String) (secret : String) : Bool :=
  let parsed := parseSigHeader signature
  if !(strTruthy parsed.1) || parsed.2.isEmpty then false
  else
    let signed_payload := parsed.1.getD "" ++ "." ++ payload
    let expected_signature := hm secret signed_payload
    parsed.2.any (fun sig => expected_signature == sig)

/-- The routed event parsed from an authenticated payload
(`stripe.Event.construct_from` is library code, passed pre-parsed;
`none` models an unparsable payload). -/
inductive WebhookEvent
  | verification (ev : VerifEvent)
  | payment (ev : PIEvent)
  | other
  deriving Repr, DecidableEq

/-- Successful acknowledgement of `handle_stripe_webhook`. -/
inductive WebhookOutcome
  | verification (r : VerifResult)
  | payment (r : PIResult)
  | received
  deriving Repr, DecidableEq

/-- Client-error rejections of `handle_stripe_webhook`. -/
inductive WebhookError
  | invalid_signature
  | invalid_payload
  deriving Repr, DecidableEq

/-- `handle_stripe_webhook`: verify the signature before anything else
(an invalid signature is rejected with no state change), then parse and
route the event. -/
def handle_stripe_webhook (hm : String → String → String) (secret : String)
    (now : Nat) (captureRemote : String → Option PaymentStatus)
    (db : PayDB) (payload : String) (signature : String)
    (parsed : Option WebhookEvent) :
    Except WebhookError WebhookOutcome × PayDB :=
  if !(verify_webhook_signature hm payload signature secret) then
    (Except.error WebhookError.invalid_signature, db)
  else
    match parsed with
    | none => (Except.error WebhookError.invalid_payload, db)
    | some (WebhookEvent.verification ev) =>
      let res := handle_verification_session_event now captureRemote db ev
      (Except.ok (WebhookOutcome.verification res.1), res.2)
    | some (WebhookEvent.payment ev) =>
      let res := handle_payment_intent_event now db ev
      (Except.ok (WebhookOutcome.payment res.1), res.2)
    | some WebhookEvent.other => (Except.ok WebhookOutcome.received, db)

/-! ## Concrete data for witnesses and counterexamples -/

/-- Empty database. -/
def payDB0 : PayDB where
  users := []
  orders := []
  intents := []

/-- Stand-in keyed-hash oracle used by the C4 witness. -/
def hmDot : String → String → String := fun k m => k ++ "." ++ m

/-- Capture oracle that always fails. -/
def crFail : String → Option PaymentStatus := fun _ => none

/-- Capture oracle that always succeeds with status `succeeded`. -/
def crOK : String → Option PaymentStatus := fun _ => some PaymentStatus.succeeded

/-- Draft order used by the C3 witness. -/
def orderD : Order where
  id := 11
  user_id := 7
  tonnes_co2 := 2
  amount_usd := 40
  fee_usd := 4
  total_usd := 44
  eth_address := none
  tokens_to_mint := none
  status := OrderStatus.draft

/-- Database holding only `orderD`. -/
def dbD : PayDB where
  users := []
  orders := [orderD]
  intents := []

/-- Remote result used by the C3 witness. -/
def siD : StripeIntent where
  id := "pi_d"
  client_secret := "cs_d"
  status := PaymentStatus.requires_payment_method

/-- Pending-KYC user used by the C1 witness. -/
def userK : User where
  id := 7
  email := "k@example.org"
  is_active := true
  is_verified := true
  kyc_status := KYCStatus.pending
  stripe_verification_session_id := some "vs_old"

/-- Authorized order of `userK` used by the C1 witness. -/
def orderK : Order where
  id := 21
  user_id := 7
  tonnes_co2 := 1
  amount_usd := 20
  fee_usd := 4
  total_usd := 24
  eth_address := none
  tokens_to_mint := none
  status := OrderStatus.payment_authorized

/-- Capturable intent of `orderK`. -/
def intentK : PaymentIntent where
  order_id := 21
  stripe_payment_intent_id := "pi_k"
  client_secret := "cs_k"
  amount_cents := 2400
  currency := "usd"
  status := PaymentStatus.requires_capture
  capture_method := "manual"
  captured_at := none
  captured_amount_cents := none

/-- Database for the C1 witness. -/
def dbK : PayDB where
  users := [userK]
  orders := [orderK]
  intents := [intentK]

/-- Verified event for the C1 witness. -/
def evK : VerifEvent where
  etype := VerifEventType.verified
  session_id := "vs_new"
  client_reference_id := some 7

/-- Intent already captured (`succeeded`), used by the C5
counterexample. -/
def piCE : PaymentIntent where
  order_id := 1
  stripe_payment_intent_id := "pi_ce"
  client_secret := "cs_ce"
  amount_cents := 2400
  currency := "usd"
  status := PaymentStatus.succeeded
  capture_method := "manual"
  captured_at := some 100
  captured_amount_cents := some 2400

/-- Order owning `piCE`. -/
def orderCE : Order where
  id := 1
  user_id := 7
  tonnes_co2 := 1
  amount_usd := 20
  fee_usd := 4
  total_usd := 24
  eth_address := none
  tokens_to_mint := none
  status := OrderStatus.processing

/-- Database for the C5 counterexample. -/
def dbCE : PayDB where
  users := []
  orders := [orderCE]
  intents := [piCE]

/-- Stale `requires_capture` event redelivered after capture, for the
C5 counterexample. -/
def evCE : PIEvent where
  etype := PIEventType.requires_capture
  intent_id := "pi_ce"
  intent_status := PaymentStatus.requires_capture

/-- First authorized order for the C2 witness. -/
def ordW1 : Order where
  id := 1
  user_id := 7
  tonnes_co2 := 1
  amount_usd := 20
  fee_usd := 4
  total_usd := 24
  eth_address := none
  tokens_to_mint := none
  status := OrderStatus.payment_authorized

/-- Second authorized order for the C2 witness. -/
def ordW2 : Order where
  id := 2
  user_id := 7
  tonnes_co2 := 1
  amount_usd := 20
  fee_usd := 4
  total_usd := 24
  eth_address := none
  tokens_to_mint := none
  status := OrderStatus.payment_authorized

/-- Capturable intent of `ordW1`. -/
def piW1 : PaymentIntent where
  order_id := 1
  stripe_payment_intent_id := "pw1"
  client_secret := "cw1"
  amount_cents := 2400
  currency := "usd"
  status := PaymentStatus.requires_capture
  capture_method := "manual"
  captured_at := none
  captured_amount_cents := none

/-- Capturable intent of `ordW2`. -/
def piW2 : PaymentIntent where
  order_id := 2
  stripe_payment_intent_id := "pw2"
  client_secret := "cw2"
  amount_cents := 2400
  currency := "usd"
  status := PaymentStatus.requires_capture
  capture_method := "manual"
  captured_at := none
  captured_amount_cents := none

/-- Pending-KYC user owning the two C2 witness orders. -/
def userW : User where
  id := 7
  email := "w@example.org"
  is_active := true
  is_verified := true
  kyc_status := KYCStatus.pending
  stripe_verification_session_id := some "vs_w_old"

/-- Database for the C2 witness: one user, two authorized orders, two
capturable intents. -/
def dbW : PayDB where
  users := [userW]
  orders := [ordW1, ordW2]
  intents := [piW1, piW2]

/-- Capture oracle for the C2 witness: fails for `piW1`, succeeds for
`piW2`. -/
def crW : String → Option PaymentStatus :=
  fun sid => if sid == "pw2" then some PaymentStatus.succeeded else none

/-- Verified event for the C2 witness. -/
def evW : VerifEvent where
  etype := VerifEventType.verified
  session_id := "vs_w_new"
  client_reference_id := some 7

/-! ## Theorems -/

/-- Generic list fact: a keyed in-place row update (mapping the rows the
predicate selects through `g`) turns a `find?` for that predicate into a
`find?` on the old table followed by `g`, provided `g` keeps selected
rows selected. -/
theorem find?_map_ite {α : Type} (l : List α) (p : α → Bool) (g : α → α)
    (hg : ∀ a, p a = true → p (g a) = true) :
    (l.map (fun a => if p a then g a else a)).find? p = (l.find? p).map g := by
  induction l with
  | nil => rfl
  | cons a t ih =>
    cases ha : p a
    · simp [List.find?_cons, ha, ih]
    · simp [List.find?_cons, ha, hg a ha]

/-- Generic list fact: a map that neither changes whether a row matches
`p` nor changes the matching rows leaves `find? p` unchanged. -/
theorem find?_map_stable {α : Type} (l : List α) (p : α → Bool) (f : α → α)
    (hp : ∀ a, p (f a) = p a) (hfix : ∀ a, p a = true → f a = a) :
    (l.map f).find? p = l.find? p := by
  induction l with
  | nil => rfl
  | cons a t ih =>
    cases ha : p a
    · simp [List.find?_cons, hp a, ha, ih]
    · simp [List.find?_cons, hp a, ha, hfix a ha]

/-- C8: resolving a session token returns the session iff it exists, is
active and is not expired; an invalid-but-present record is deleted as a
side effect of the failed resolution; on success `last_accessed_at` is
set to the current time exactly when `touch` is true, while a
`touch=false` resolve returns the record and leaves the store (hence
`last_accessed_at`) unchanged. -/
theorem C8_get_session_by_token_spec (now : Nat) (store : List Session)
    (tok : String) (touch : Bool) :
    ((get_session_by_token now store tok touch).1.isSome
        ↔ ∃ s, findSession store tok = some s ∧ s.is_valid now = true)
    ∧ (findSession store tok = none →
        get_session_by_token now store tok touch = (none, store))
    ∧ (∀ s, findSession store tok = some s → s.is_valid now = false →
        get_session_by_token now store tok touch
          = (none, deleteSessionByToken store tok))
    ∧ (∀ s, findSession store tok = some s → s.is_valid now = true →
        get_session_by_token now store tok true
            = (some (s.touch now), replaceSession store tok (s.touch now))
          ∧ (s.touch now).last_accessed_at = now
          ∧ get_session_by_token now store tok false = (some s, store)) := by
  refine ⟨?_, ?_, ?_, ?_⟩
  · cases h : findSession store tok with
    | none => simp [get_session_by_token, h]
    | some s =>
      cases hv : s.is_valid now
      · simp [get_session_by_token, h, hv]
      · cases touch <;> simp [get_session_by_token, h, hv]
  · intro h
    simp [get_session_by_token, h]
  · intro s hs hv
    simp [get_session_by_token, hs, hv]
  · intro s hs hv
    refine ⟨by simp [get_session_by_token, hs, hv], rfl,
      by simp [get_session_by_token, hs, hv]⟩

/-- Witness for C8 at a concrete store: a valid session is returned
touched and the store is updated in place. -/
theorem C8_get_session_by_token_spec_witness :
    get_session_by_token 5 [sessA] "tokA" true
      = (some (sessA.touch 5), replaceSession [sessA] "tokA" (sessA.touch 5)) :=
  ((C8_get_session_by_token_spec 5 [sessA] "tokA" true).2.2.2 sessA
    (by decide) (by decide)).1

/-- C10: extending a session fails and changes nothing when the token is
absent; an invalid-but-present record is deleted by the lookup and the
call fails; a valid session is extended, and its new expiry is computed
from the current time plus the requested number of days, independent of
the previous expiry. -/
theorem C10_extend_session_spec (now : Nat) (store : List Session)
    (tok : String) (days : Nat) :
    (findSession store tok = none →
        extend_session now store tok days = (false, store))
    ∧ (∀ s, findSession store tok = some s → s.is_valid now = false →
        extend_session now store tok days
          = (false, deleteSessionByToken store tok))
    ∧ (∀ s, findSession store tok = some s → s.is_valid now = true →
        extend_session now store tok days
            = (true, replaceSession store tok (s.extend_expiration now days))
          ∧ (s.extend_expiration now days).expires_at = now + days * 86400) := by
  refine ⟨?_, ?_, ?_⟩
  · intro h
    simp [extend_session, get_session_by_token, h]
  · intro s hs hv
    simp [extend_session, get_session_by_token, hs, hv]
  · intro s hs hv
    exact ⟨by simp [extend_session, get_session_by_token, hs, hv], rfl⟩

/-- Witness for C10 at a concrete store: a valid session is extended to
`now + days * 86400` regardless of its old expiry. -/
theorem C10_extend_session_spec_witness :
    extend_session 5 [sessB] "tokB" 7
      = (true, replaceSession [sessB] "tokB" (sessB.extend_expiration 5 7)) :=
  ((C10_extend_session_spec 5 [sessB] "tokB" 7).2.2 sessB
    (by decide) (by decide)).1

/-- Marking the row with a given token as used commutes with the token
lookup: the lookup afterwards returns the used-marked version of
whatever it returned before. -/
theorem findMagicLink_markLinkUsed (links : List MagicLink) (tok : String)
    (now : Nat) :
    (markLinkUsed links tok now).find? (fun l => l.token == tok)
      = (links.find? (fun l => l.token == tok)).map
          (fun l => { l with is_used := true, used_at := some now }) := by
  induction links with
  | nil => rfl
  | cons a l ih =>
    simp only [markLinkUsed, List.map_cons] at ih ⊢
    cases ha : a.token == tok
    · rw [List.find?_cons_of_neg, List.find?_cons_of_neg]
      · exact ih
      · simp [ha]
      · simp [ha]
    · rw [List.find?_cons_of_pos, List.find?_cons_of_pos]
      · simp [ha]
      · simp [ha]
      · simp [ha]

/-- Redeeming a token with no matching row is the uniform invalid
result with no state change. -/
theorem redeem_invalid_of_not_found (now : Nat) (st : AuthState)
    (token : String) (req_ip req_ua : Option String) (enforce : Bool)
    (h : findMagicLink st token = none) :
    validate_and_redeem_token now st token req_ip req_ua enforce
      = ((none, none), st) := by
  simp [validate_and_redeem_token, h]

/-- C6: a magic-link redemption succeeds at most once.  A success marks
the link used with a used-at timestamp, sets the owning user's verified
flag and returns the stored redirect URL; any subsequent redemption of
the same token returns the uniform invalid result; a not-found,
already-used or expired token yields the same uniform invalid result,
with the expired record deleted as a cleanup side effect. -/
theorem C6_validate_and_redeem_token_spec (now : Nat) (st : AuthState)
    (token : String) (req_ip req_ua : Option String) (enforce : Bool) :
    (∀ u r st2,
       validate_and_redeem_token now st token req_ip req_ua enforce
         = ((some u, r), st2) →
       u.is_verified = true
       ∧ (∃ ml, findMagicLink st token = some ml ∧ r = ml.redirect_url
           ∧ findMagicLink st2 token
               = some { ml with is_used := true, used_at := some now })
       ∧ ∀ now2 ip2 ua2 enf2,
           validate_and_redeem_token now2 st2 token ip2 ua2 enf2
             = ((none, none), st2))
    ∧ (findMagicLink st token = none →
        validate_and_redeem_token now st token req_ip req_ua enforce
          = ((none, none), st))
    ∧ (∀ ml, findMagicLink st token = some ml → ml.is_used = true →
        validate_and_redeem_token now st token req_ip req_ua enforce
          = ((none, none), st))
    ∧ (∀ ml, findMagicLink st token = some ml → ml.is_used = false →
        ml.is_expired now = true →
        validate_and_redeem_token now st token req_ip req_ua enforce
          = ((none, none), deleteMagicLink st token)) := by
  refine ⟨?_, redeem_invalid_of_not_found now st token req_ip req_ua enforce,
    ?_, ?_⟩
  · intro u r st2 h
    cases hf : findMagicLink st token with
    | none => simp [validate_and_redeem_token, hf] at h
    | some ml =>
      simp only [validate_and_redeem_token, hf] at h
      split at h
      · simp at h
      · split at h
        · simp at h
        · split at h
          · simp at h
          · split at h
            · simp at h
            · cases hu2 : findUser st.users ml.user_id with
              | none => rw [hu2] at h; simp at h
              | some u0 =>
                rw [hu2] at h
                simp only [Prod.mk.injEq, Option.some.injEq] at h
                obtain ⟨⟨hu, hr⟩, hst2⟩ := h
                have hml : findMagicLink st2 token
                    = some { ml with is_used := true, used_at := some now } := by
                  rw [← hst2]
                  show (markLinkUsed st.links token now).find?
                      (fun l => l.token == token) = _
                  rw [findMagicLink_markLinkUsed]
                  rw [show st.links.find? (fun l => l.token == token)
                      = some ml from hf]
                  rfl
                refine ⟨by rw [← hu], ⟨ml, rfl, hr.symm, hml⟩, ?_⟩
                intro now2 ip2 ua2 enf2
                simp [validate_and_redeem_token, hml]
  · intro ml hf hu
    simp [validate_and_redeem_token, hf, hu]
  · intro ml hf hu hexp
    simp [validate_and_redeem_token, hf, hu, hexp]

/-- Witness for C6: redeeming the concrete link succeeds, and redeeming
the same token again on the resulting state is invalid. -/
theorem C6_validate_and_redeem_token_spec_witness :
    (validate_and_redeem_token 10 authStC "mlC" none none true).2.links
        = markLinkUsed authStC.links "mlC" 10
      ∧ ∀ res, res = validate_and_redeem_token 10 authStC "mlC" none none true →
        validate_and_redeem_token 20 res.2 "mlC" none none true
          = ((none, none), res.2) := by
  constructor
  · rfl
  · intro res hres
    have h := ((C6_validate_and_redeem_token_spec 10 authStC "mlC" none none
        true).1 { userC with is_verified := true } (some "https://example.org/after")
        (validate_and_redeem_token 10 authStC "mlC" none none true).2
        (by rfl)).2.2 20 none none true
    rw [hres]
    exact h

/-- C7: creating a magic link first deletes every unused link of the
user, so afterwards the only unused link of that user is the fresh one,
and any prior unused token of that user is unredeemable (uniformly
invalid) even if unexpired, provided tokens are unique and the fresh
token is new. -/
theorem C7_create_magic_link_spec (now : Nat) (st : AuthState) (user : User)
    (token : String) (ip ua redirect : Option String) :
    (∀ l, l ∈ (create_magic_link now st user token ip ua redirect).2.links →
        l.user_id = user.id → l.is_used = false →
        l = (create_magic_link now st user token ip ua redirect).1)
    ∧ (∀ old, old ∈ st.links → old.user_id = user.id → old.is_used = false →
        old.token ≠ token →
        (∀ l, l ∈ st.links → l.token = old.token → l = old) →
        ∀ now2 ip2 ua2 enf2,
          validate_and_redeem_token now2
              (create_magic_link now st user token ip ua redirect).2
              old.token ip2 ua2 enf2
            = ((none, none),
               (create_magic_link now st user token ip ua redirect).2)) := by
  constructor
  · intro l hl huid hused
    simp only [create_magic_link, cleanup_user_links, List.mem_append,
      List.mem_filter, List.mem_singleton] at hl
    rcases hl with ⟨hmem, hkeep⟩ | hnew
    · exfalso
      rw [huid, hused] at hkeep
      simp at hkeep
    · exact hnew
  · intro old hold huid hused hneq huniq now2 ip2 ua2 enf2
    have hnone : findMagicLink
        (create_magic_link now st user token ip ua redirect).2 old.token = none := by
      apply List.find?_eq_none.mpr
      intro x hx
      simp only [create_magic_link, cleanup_user_links, List.mem_append,
        List.mem_filter, List.mem_singleton] at hx
      rcases hx with ⟨hmem, hkeep⟩ | hnew
      · intro hxtok
        have hx_eq : x = old := huniq x hmem (by simpa using hxtok)
        rw [hx_eq, huid, hused] at hkeep
        simp at hkeep
      · intro hxtok
        rw [hnew] at hxtok
        exact hneq (Eq.symm (by simpa using hxtok))
    exact redeem_invalid_of_not_found now2
      (create_magic_link now st user token ip ua redirect).2 old.token
      ip2 ua2 enf2 hnone

/-- Witness for C7: after issuing a fresh link for the concrete user,
the prior unused token is unredeemable. -/
theorem C7_create_magic_link_spec_witness :
    validate_and_redeem_token 20
        (create_magic_link 10 authStC userC "mlNew" none none none).2
        "mlC" none none true
      = ((none, none),
         (create_magic_link 10 authStC userC "mlNew" none none none).2) :=
  (C7_create_magic_link_spec 10 authStC userC "mlNew" none none none).2
    linkC (by simp [authStC]) (by rfl) (by rfl) (by simp [linkC])
    (by
      intro l hl htok
      simp only [authStC, List.mem_singleton] at hl
      exact hl)
    20 none none true

/-- C9: an order created with a validated positive tonne count has
`amount = 20.00 * tonnes`, `fee = 4.00`, `total = amount + fee`;
the token quantity is `0.3 * tonnes` exactly when a delivery address was
supplied and absent otherwise; and the order is persisted with status
`draft`. -/
theorem C9_create_order_spec (db : PayDB) (user : User) (oid tonnes : Nat)
    (eth : Option String) (hpos : 0 < tonnes) (hle : tonnes ≤ 1000) :
    orderRequestValid tonnes = true
    ∧ (create_order db user oid tonnes eth).1.amount_usd = 20 * tonnes
    ∧ (create_order db user oid tonnes eth).1.fee_usd = 4
    ∧ (create_order db user oid tonnes eth).1.total_usd
        = (create_order db user oid tonnes eth).1.amount_usd
          + (create_order db user oid tonnes eth).1.fee_usd
    ∧ (∀ s, eth = some s → s ≠ "" →
        (create_order db user oid tonnes eth).1.tokens_to_mint
          = some ((3 : Rat) / 10 * tonnes))
    ∧ (eth = none →
        (create_order db user oid tonnes eth).1.tokens_to_mint = none)
    ∧ (create_order db user oid tonnes eth).1.status = OrderStatus.draft
    ∧ (create_order db user oid tonnes eth).2.orders
        = db.orders ++ [(create_order db user oid tonnes eth).1] := by
  refine ⟨?_, rfl, rfl, rfl, ?_, ?_, rfl, rfl⟩
  · simp only [orderRequestValid, Bool.and_eq_true, decide_eq_true_eq]
    omega
  · intro s hs hne
    simp [create_order, calculate_tokens_to_mint, TOKENS_PER_TONNE, strTruthy,
      hs, hne]
  · intro hs
    simp [create_order, strTruthy, hs]

/-- Witness for C9 at `tonnes = 10` with a delivery address: amount
200.00, fee 4.00, total 204.00, three tokens to mint, status `draft`. -/
theorem C9_create_order_spec_witness :
    orderRequestValid 10 = true
    ∧ (create_order payDB0 userC 31 10 (some "0xabc")).1.amount_usd = 200
    ∧ (create_order payDB0 userC 31 10 (some "0xabc")).1.fee_usd = 4
    ∧ (create_order payDB0 userC 31 10 (some "0xabc")).1.total_usd = 204
    ∧ (create_order payDB0 userC 31 10 (some "0xabc")).1.tokens_to_mint
        = some 3
    ∧ (create_order payDB0 userC 31 10 (some "0xabc")).1.status
        = OrderStatus.draft := by
  have h := C9_create_order_spec payDB0 userC 31 10 (some "0xabc")
    (by decide) (by decide)
  refine ⟨h.1, ?_, h.2.2.1, ?_, ?_, h.2.2.2.2.2.2.1⟩
  · rw [h.2.1]
    norm_num
  · rw [h.2.2.2.1, h.2.1, h.2.2.1]
    norm_num
  · rw [h.2.2.2.2.1 "0xabc" rfl (by decide)]
    norm_num

/-- C3: authorizing payment on an order that is not in `draft` is
rejected as a client error with no state change; a remote-provider
failure leaves the order in `draft` with nothing written; and a
successful remote call persists the intent row and moves the order to
`payment_pending`. -/
theorem C3_create_payment_intent_spec (db : PayDB) (oid uid : Nat)
    (remote : Option StripeIntent) :
    (∀ order, get_order_by_id db oid uid = some order →
        order.status ≠ OrderStatus.draft →
        create_payment_intent_endpoint db oid uid remote
          = (Except.error ApiError.badStatus, db))
    ∧ (∀ order, get_order_by_id db oid uid = some order →
        order.status = OrderStatus.draft → remote = none →
        create_payment_intent_endpoint db oid uid remote
          = (Except.error ApiError.stripeFailed, db))
    ∧ (∀ order si, get_order_by_id db oid uid = some order →
        order.status = OrderStatus.draft → remote = some si →
        create_payment_intent_endpoint db oid uid remote
          = (Except.ok (mkPaymentIntent order si),
             { db with
               intents := db.intents ++ [mkPaymentIntent order si],
               orders := setOrderStatus db.orders order.id
                 OrderStatus.payment_pending })) := by
  refine ⟨?_, ?_, ?_⟩
  · intro order ho hs
    simp [create_payment_intent_endpoint, ho, bne_iff_ne, hs]
  · intro order ho hs hr
    simp [create_payment_intent_endpoint, ho, hs, hr, create_payment_intent]
  · intro order si ho hs hr
    simp [create_payment_intent_endpoint, ho, hs, hr, create_payment_intent]

/-- Witness for C3: a draft order with a successful remote call yields
the persisted intent and a `payment_pending` order. -/
theorem C3_create_payment_intent_spec_witness :
    create_payment_intent_endpoint dbD 11 7 (some siD)
      = (Except.ok (mkPaymentIntent orderD siD),
         { dbD with
           intents := dbD.intents ++ [mkPaymentIntent orderD siD],
           orders := setOrderStatus dbD.orders orderD.id
             OrderStatus.payment_pending }) :=
  (C3_create_payment_intent_spec dbD 11 7 (some siD)).2.2 orderD siD
    (by decide) (by decide) rfl

/-- C4: a webhook request is accepted iff its signature header parses to
a (non-empty) timestamp `t` and at least one candidate signature equal
to the keyed hash of `"t.payload"` under the shared secret; when
verification fails the request is rejected before any business logic
runs and the database is unchanged. -/
theorem C4_verify_webhook_signature_spec (hm : String → String → String)
    (payload signature secret : String) (now : Nat)
    (captureRemote : String → Option PaymentStatus) (db : PayDB)
    (parsed_event : Option WebhookEvent) :
    (verify_webhook_signature hm payload signature secret = true
      ↔ ∃ t, (parseSigHeader signature).1 = some t ∧ t ≠ ""
          ∧ ((parseSigHeader signature).2.any
              (fun sig => hm secret (t ++ "." ++ payload) == sig)) = true)
    ∧ (verify_webhook_signature hm payload signature secret = false →
        handle_stripe_webhook hm secret now captureRemote db payload
            signature parsed_event
          = (Except.error WebhookError.invalid_signature, db)) := by
  constructor
  · cases hts : (parseSigHeader signature).1 with
    | none => simp [verify_webhook_signature, hts, strTruthy]
    | some t0 =>
      by_cases ht : t0 = ""
      · simp [verify_webhook_signature, hts, strTruthy, ht]
      · cases hse : (parseSigHeader signature).2.isEmpty
        · simp [verify_webhook_signature, hts, strTruthy, ht, hse]
        · simp [verify_webhook_signature, hts, strTruthy, ht, hse,
            List.isEmpty_iff.mp hse]
  · intro h
    simp [handle_stripe_webhook, h]

/-- Witness for C4: a header whose only candidate does not match the
expected digest is rejected with no state change. -/
theorem C4_verify_webhook_signature_spec_witness :
    handle_stripe_webhook hmDot "sec" 0 crFail payDB0 "body" "t=5,v1=wrong"
        none
      = (Except.error WebhookError.invalid_signature, payDB0) :=
  (C4_verify_webhook_signature_spec hmDot "body" "t=5,v1=wrong" "sec" 0
    crFail payDB0 none).2 (by decide)

/-- The capture loop body never writes the user table. -/
theorem captureOrderPayment_users (now : Nat)
    (cr : String → Option PaymentStatus) (db : PayDB) (oid : Nat) :
    (captureOrderPayment now cr db oid).users = db.users := by
  unfold captureOrderPayment
  split
  · rfl
  · split <;> rfl

/-- Folding the capture loop never writes the user table. -/
theorem foldl_captureOrderPayment_users (now : Nat)
    (cr : String → Option PaymentStatus) (ids : List Nat) :
    ∀ db : PayDB,
      ((ids.foldl (captureOrderPayment now cr) db).users = db.users) := by
  induction ids with
  | nil => intro db; rfl
  | cons a t ih =>
    intro db
    rw [List.foldl_cons, ih, captureOrderPayment_users]

/-- `capture_user_payments` never writes the user table. -/
theorem capture_user_payments_users (now : Nat)
    (cr : String → Option PaymentStatus) (db : PayDB) (uid : Nat) :
    (capture_user_payments now cr db uid).users = db.users :=
  foldl_captureOrderPayment_users now cr _ db

/-- Looking a user up after the KYC-status commit returns the updated
row. -/
theorem findUser_setUserKYC (users : List User) (uid : Nat)
    (ks : KYCStatus) (sid : String) :
    findUser (setUserKYC users uid ks sid) uid
      = (findUser users uid).map (fun u =>
          { u with kyc_status := ks,
                   stripe_verification_session_id := some sid }) := by
  unfold findUser setUserKYC
  exact find?_map_ite users (fun u => u.id == uid) _ (fun a ha => ha)

/-- A `verified` event that is not the recognized duplicate (status
already verified with matching stored session id) updates the user and
hands off to `capture_user_payments`. -/
theorem handle_verified_event_eq_capture (now : Nat)
    (captureRemote : String → Option PaymentStatus) (db : PayDB)
    (ev : VerifEvent) (uid : Nat) (user : User)
    (hty : ev.etype = VerifEventType.verified)
    (href : ev.client_reference_id = some uid)
    (huser : findUser db.users uid = some user)
    (hcase : user.kyc_status ≠ KYCStatus.verified
      ∨ user.stripe_verification_session_id ≠ some ev.session_id) :
    handle_verification_session_event now captureRemote db ev
      = (VerifResult.updated KYCStatus.verified,
         capture_user_payments now captureRemote
           { db with users := setUserKYC db.users uid KYCStatus.verified ev.session_id }
           uid) := by
  have hcond : (user.stripe_verification_session_id == some ev.session_id
      && ev.etype == VerifEventType.verified
      && user.kyc_status == KYCStatus.verified) = false := by
    rcases hcase with hk | hsid
    · simp [beq_eq_false_iff_ne, hk]
    · simp [beq_eq_false_iff_ne, hsid]
  simp [handle_verification_session_event, href, huser, hty, hcond]
  intro hsid
  rcases hcase with h | h
  · exact h
  · exact absurd hsid h

/-- C1: for a `verified` identity-verification event resolving to an
existing user, if the user is already KYC-verified and the stored remote
session id equals the event's session id, the handler acknowledges
`already_processed` and performs no writes (in particular no capture);
otherwise it sets the user's KYC status to `verified`, records the
event's session id, and runs `capture_user_payments` for the user. -/
theorem C1_handle_verification_verified_spec (now : Nat)
    (captureRemote : String → Option PaymentStatus) (db : PayDB)
    (ev : VerifEvent) (uid : Nat) (user : User)
    (hty : ev.etype = VerifEventType.verified)
    (href : ev.client_reference_id = some uid)
    (huser : findUser db.users uid = some user) :
    (user.kyc_status = KYCStatus.verified →
        user.stripe_verification_session_id = some ev.session_id →
        handle_verification_session_event now captureRemote db ev
          = (VerifResult.already_processed, db))
    ∧ (user.kyc_status ≠ KYCStatus.verified
        ∨ user.stripe_verification_session_id ≠ some ev.session_id →
        handle_verification_session_event now captureRemote db ev
          = (VerifResult.updated KYCStatus.verified,
             capture_user_payments now captureRemote
               { db with users := setUserKYC db.users uid KYCStatus.verified ev.session_id }
               uid)
        ∧ findUser
            (handle_verification_session_event now captureRemote db ev).2.users
            uid
          = some { user with
              kyc_status := KYCStatus.verified,
              stripe_verification_session_id := some ev.session_id }) := by
  constructor
  · intro hk hsid
    simp [handle_verification_session_event, href, huser, hty, hk, hsid]
  · intro hcase
    have hres := handle_verified_event_eq_capture now captureRemote db ev
      uid user hty href huser hcase
    refine ⟨hres, ?_⟩
    rw [hres]
    show findUser (capture_user_payments now captureRemote _ uid).users uid = _
    rw [capture_user_payments_users]
    show findUser (setUserKYC db.users uid KYCStatus.verified ev.session_id)
      uid = _
    rw [findUser_setUserKYC, huser]
    rfl

/-- Witness for C1: a pending user with a fresh session id is flipped to
verified, the session id is recorded, and the capture pass runs. -/
theorem C1_handle_verification_verified_spec_witness :
    handle_verification_session_event 9 crOK dbK evK
      = (VerifResult.updated KYCStatus.verified,
         capture_user_payments 9 crOK
           { dbK with
             users := setUserKYC dbK.users 7 KYCStatus.verified evK.session_id }
           7)
    ∧ findUser (handle_verification_session_event 9 crOK dbK evK).2.users 7
        = some { userK with
            kyc_status := KYCStatus.verified,
            stripe_verification_session_id := some evK.session_id } :=
  (C1_handle_verification_verified_spec 9 crOK dbK evK 7 userK rfl rfl
    (by decide)).2 (Or.inl (by decide))

/-- C5 (amended): `handle_payment_intent_event` overwrites the mirrored
status with the event's reported status unconditionally — there is no
forward-only guard — and it re-stamps `captured_at` on every `succeeded`
event rather than only at first capture. -/
theorem C5_handle_payment_intent_event_overwrites (now : Nat) (db : PayDB)
    (ev : PIEvent) (pi : PaymentIntent) (o : Order)
    (hpi : findIntentByStripeId db.intents ev.intent_id = some pi)
    (ho : findOrder db.orders pi.order_id = some o) :
    findIntentByStripeId
        (handle_payment_intent_event now db ev).2.intents ev.intent_id
      = some (if ev.etype == PIEventType.succeeded
          then { pi with status := ev.intent_status, captured_at := some now }
          else { pi with status := ev.intent_status }) := by
  have hpi2 : db.intents.find?
      (fun p => p.stripe_payment_intent_id == ev.intent_id) = some pi := hpi
  have hpred := List.find?_some hpi2
  simp only [handle_payment_intent_event, hpi, ho]
  show findIntentByStripeId (replaceIntent db.intents ev.intent_id _)
    ev.intent_id = _
  unfold findIntentByStripeId replaceIntent
  rw [find?_map_ite db.intents
    (fun p => p.stripe_payment_intent_id == ev.intent_id) _
    (fun a _ => by cases hc : ev.etype == PIEventType.succeeded <;>
      simp [hc, hpred])]
  rw [show db.intents.find?
      (fun p => p.stripe_payment_intent_id == ev.intent_id) = some pi
    from hpi]
  rfl

/-- Counterexample for C5 as stated: a stale `requires_capture` event
redelivered after the intent already reached `succeeded` (capture fields
stamped) moves the mirrored status backward through the vocabulary. -/
theorem C5_status_moves_backward_counterexample :
    (findIntentByStripeId dbCE.intents "pi_ce").map (fun p => p.status)
        = some PaymentStatus.succeeded
    ∧ (findIntentByStripeId
          (handle_payment_intent_event 200 dbCE evCE).2.intents
          "pi_ce").map (fun p => p.status)
        = some PaymentStatus.requires_capture
    ∧ statusRank PaymentStatus.requires_capture
        < statusRank PaymentStatus.succeeded := by
  decide

/-- Witness for the amended C5 at the counterexample input: the stored
status becomes exactly the event's reported status. -/
theorem C5_handle_payment_intent_event_overwrites_witness :
    findIntentByStripeId
        (handle_payment_intent_event 200 dbCE evCE).2.intents "pi_ce"
      = some { piCE with status := PaymentStatus.requires_capture } :=
  C5_handle_payment_intent_event_overwrites 200 dbCE evCE piCE orderCE
    (by decide) (by decide)

/-- Committing a status change of one order leaves lookups of other
order ids unchanged. -/
theorem findOrder_setOrderStatus_ne (orders : List Order) (oid2 : Nat)
    (s : OrderStatus) (oid : Nat) (hne : oid ≠ oid2) :
    findOrder (setOrderStatus orders oid2 s) oid = findOrder orders oid := by
  unfold findOrder setOrderStatus
  apply find?_map_stable
  · intro o
    cases h : o.id == oid2 <;> simp [h]
  · intro o h
    have hid : o.id = oid := by simpa using h
    simp [hid, hne]

/-- Looking an order up after its own status commit returns the updated
row. -/
theorem findOrder_setOrderStatus_self (orders : List Order) (oid : Nat)
    (s : OrderStatus) :
    findOrder (setOrderStatus orders oid s) oid
      = (findOrder orders oid).map (fun o => { o with status := s }) := by
  unfold findOrder setOrderStatus
  exact find?_map_ite orders (fun o => o.id == oid) _ (fun a ha => ha)

/-- The capture loop body for one order leaves lookups of other orders
unchanged. -/
theorem findOrder_captureOrderPayment_ne (now : Nat)
    (cr : String → Option PaymentStatus) (db : PayDB) (oid2 oid : Nat)
    (hne : oid ≠ oid2) :
    findOrder (captureOrderPayment now cr db oid2).orders oid
      = findOrder db.orders oid := by
  unfold captureOrderPayment
  split
  · rfl
  · split
    · exact findOrder_setOrderStatus_ne db.orders oid2 _ oid hne
    · exact findOrder_setOrderStatus_ne db.orders oid2 _ oid hne

/-- The capture loop body for one order leaves the capturable-intent
lookup of other orders unchanged. -/
theorem findCapturableIntent_captureOrderPayment_ne (now : Nat)
    (cr : String → Option PaymentStatus) (db : PayDB) (oid2 oid : Nat)
    (hne : oid ≠ oid2) :
    findCapturableIntent (captureOrderPayment now cr db oid2).intents oid
      = findCapturableIntent db.intents oid := by
  cases hpi : findCapturableIntent db.intents oid2 with
  | none => simp [captureOrderPayment, hpi]
  | some pi =>
    have hpi2 : db.intents.find? (fun q => q.order_id == oid2
        && q.status == PaymentStatus.requires_capture) = some pi := hpi
    have hpred := List.find?_some hpi2
    have hpiord : pi.order_id = oid2 := by
      simp only [Bool.and_eq_true, beq_iff_eq] at hpred
      exact hpred.1
    cases hcr : cr pi.stripe_payment_intent_id with
    | none => simp [captureOrderPayment, hpi, hcr]
    | some s =>
      simp only [captureOrderPayment, hpi, hcr]
      unfold findCapturableIntent replaceCapturableIntent
      apply find?_map_stable
      · intro q
        cases hq : (q.order_id == oid2
            && q.status == PaymentStatus.requires_capture)
        · simp [hq]
        · have hqord : q.order_id = oid2 := by
            simp only [Bool.and_eq_true, beq_iff_eq] at hq
            exact hq.1
          have hfalse : (oid2 == oid) = false :=
            beq_eq_false_iff_ne.mpr (Ne.symm hne)
          simp [hq, hqord, hpiord, hfalse]
      · intro q hq
        have hqord : q.order_id = oid := by
          simp only [Bool.and_eq_true, beq_iff_eq] at hq
          exact hq.1
        simp [hqord, hne]

/-- The capture loop body for an order holding a capturable intent sets
that order's status to `processing` on remote success and `failed` on
remote failure. -/
theorem findOrder_captureOrderPayment_self (now : Nat)
    (cr : String → Option PaymentStatus) (db : PayDB) (oid : Nat)
    (pi : PaymentIntent)
    (hpi : findCapturableIntent db.intents oid = some pi) :
    findOrder (captureOrderPayment now cr db oid).orders oid
      = (findOrder db.orders oid).map (fun o =>
          { o with status :=
              if (cr pi.stripe_payment_intent_id).isSome
              then OrderStatus.processing else OrderStatus.failed }) := by
  cases hcr : cr pi.stripe_payment_intent_id with
  | none =>
    simp [captureOrderPayment, hpi, hcr, findOrder_setOrderStatus_self]
  | some s =>
    simp [captureOrderPayment, hpi, hcr, findOrder_setOrderStatus_self]

/-- Folding the capture loop over a list of other order ids leaves a
given order's lookup unchanged. -/
theorem findOrder_foldl_capture_not_mem (now : Nat)
    (cr : String → Option PaymentStatus) (ids : List Nat) :
    ∀ db : PayDB, ∀ oid : Nat, oid ∉ ids →
      findOrder ((ids.foldl (captureOrderPayment now cr) db).orders) oid
        = findOrder db.orders oid := by
  induction ids with
  | nil => intro db oid _; rfl
  | cons a t ih =>
    intro db oid h
    rw [List.foldl_cons,
      ih (captureOrderPayment now cr db a) oid
        (fun hm => h (List.mem_cons_of_mem a hm)),
      findOrder_captureOrderPayment_ne now cr db a oid
        (by
          intro he
          exact h (by rw [he]; exact List.mem_cons_self a t))]

/-- Per-order outcome of the capture loop: for each order id in the
snapshot (ids pairwise distinct) holding a capturable intent, the final
status of that order is `processing` when its remote capture succeeds
and `failed` when it fails, independent of the other iterations. -/
theorem findOrder_foldl_capture_mem (now : Nat)
    (cr : String → Option PaymentStatus) (ids : List Nat) :
    ∀ db : PayDB, ∀ oid : Nat, ∀ pi : PaymentIntent,
      oid ∈ ids → ids.Nodup →
      findCapturableIntent db.intents oid = some pi →
      findOrder ((ids.foldl (captureOrderPayment now cr) db).orders) oid
        = (findOrder db.orders oid).map (fun o =>
            { o with status :=
                if (cr pi.stripe_payment_intent_id).isSome
                then OrderStatus.processing else OrderStatus.failed }) := by
  induction ids with
  | nil => intro db oid pi hmem; cases hmem
  | cons a t ih =>
    intro db oid pi hmem hnd hpi
    rw [List.foldl_cons]
    rcases List.mem_cons.mp hmem with heq | hmem2
    · subst heq
      rw [findOrder_foldl_capture_not_mem now cr t _ oid
        (List.nodup_cons.mp hnd).1]
      exact findOrder_captureOrderPayment_self now cr db oid pi hpi
    · have hne : oid ≠ a := by
        intro he
        subst he
        exact (List.nodup_cons.mp hnd).1 hmem2
      have hpi1 : findCapturableIntent
          (captureOrderPayment now cr db a).intents oid = some pi := by
        rw [findCapturableIntent_captureOrderPayment_ne now cr db a oid hne]
        exact hpi
      rw [ih (captureOrderPayment now cr db a) oid pi hmem2
          (List.nodup_cons.mp hnd).2 hpi1,
        findOrder_captureOrderPayment_ne now cr db a oid hne]

/-- With pairwise-distinct order ids, `findOrder` applied to a member's
id returns exactly that member. -/
theorem findOrder_of_mem_nodup (orders : List Order) :
    ∀ o : Order, (orders.map (fun x => x.id)).Nodup → o ∈ orders →
      findOrder orders o.id = some o := by
  induction orders with
  | nil => intro o _ hm; cases hm
  | cons a t ih =>
    intro o hnd hm
    rw [List.map_cons] at hnd
    rcases List.mem_cons.mp hm with rfl | hm2
    · unfold findOrder
      rw [List.find?_cons_of_pos]
      simp
    · have hane : (a.id == o.id) = false := by
        have hnotin : a.id ∉ t.map (fun x => x.id) :=
          (List.nodup_cons.mp hnd).1
        have hoin : o.id ∈ t.map (fun x => x.id) :=
          List.mem_map_of_mem _ hm2
        simp only [beq_eq_false_iff_ne]
        intro he
        rw [he] at hnotin
        exact hnotin hoin
      unfold findOrder
      rw [List.find?_cons_of_neg]
      · exact ih o (List.nodup_cons.mp hnd).2 hm2
      · simp [hane]

/-- C2: when a KYC-verified event is processed for a user with two (or
more) `payment_authorized` orders, each order's `requires_capture`
intent is attempted; a remote failure for one order marks only that
order `failed` and the other order is still captured and moved to
`processing`. -/
theorem C2_capture_per_order_isolation (now : Nat)
    (cr : String → Option PaymentStatus) (db : PayDB)
    (ev : VerifEvent) (uid : Nat) (user : User)
    (o1 o2 : Order) (pi1 pi2 : PaymentIntent) (s : PaymentStatus)
    (hty : ev.etype = VerifEventType.verified)
    (href : ev.client_reference_id = some uid)
    (huser : findUser db.users uid = some user)
    (hfresh : user.kyc_status ≠ KYCStatus.verified)
    (hnd : (db.orders.map (fun o => o.id)).Nodup)
    (h1 : o1 ∈ db.orders) (h1u : o1.user_id = uid)
    (h1s : o1.status = OrderStatus.payment_authorized)
    (h2 : o2 ∈ db.orders) (h2u : o2.user_id = uid)
    (h2s : o2.status = OrderStatus.payment_authorized)
    (hpi1 : findCapturableIntent db.intents o1.id = some pi1)
    (hpi2 : findCapturableIntent db.intents o2.id = some pi2)
    (hfail : cr pi1.stripe_payment_intent_id = none)
    (hok : cr pi2.stripe_payment_intent_id = some s) :
    findOrder (handle_verification_session_event now cr db ev).2.orders o1.id
        = some { o1 with status := OrderStatus.failed }
    ∧ findOrder (handle_verification_session_event now cr db ev).2.orders o2.id
        = some { o2 with status := OrderStatus.processing } := by
  have hred := handle_verified_event_eq_capture now cr db ev uid user hty
    href huser (Or.inl hfresh)
  have hids_nodup : ((db.orders.filter (fun o =>
      o.user_id == uid && o.status == OrderStatus.payment_authorized)).map
      (fun o => o.id)).Nodup :=
    List.Nodup.sublist
      (List.Sublist.map (fun o => o.id) (List.filter_sublist db.orders)) hnd
  have hmem1 : o1.id ∈ (db.orders.filter (fun o =>
      o.user_id == uid && o.status == OrderStatus.payment_authorized)).map
      (fun o => o.id) :=
    List.mem_map.mpr ⟨o1, List.mem_filter.mpr ⟨h1, by simp [h1u, h1s]⟩, rfl⟩
  have hmem2 : o2.id ∈ (db.orders.filter (fun o =>
      o.user_id == uid && o.status == OrderStatus.payment_authorized)).map
      (fun o => o.id) :=
    List.mem_map.mpr ⟨o2, List.mem_filter.mpr ⟨h2, by simp [h2u, h2s]⟩, rfl⟩
  rw [hred]
  constructor
  · show findOrder ((((db.orders.filter (fun o =>
        o.user_id == uid && o.status == OrderStatus.payment_authorized)).map
        (fun o => o.id)).foldl (captureOrderPayment now cr)
        { db with users := setUserKYC db.users uid KYCStatus.verified ev.session_id }).orders)
        o1.id = _
    rw [findOrder_foldl_capture_mem now cr
      ((db.orders.filter (fun o =>
        o.user_id == uid && o.status == OrderStatus.payment_authorized)).map
        (fun o => o.id))
      { db with users := setUserKYC db.users uid KYCStatus.verified ev.session_id }
      o1.id pi1 hmem1 hids_nodup hpi1]
    have hfo1 : findOrder db.orders o1.id = some o1 :=
      findOrder_of_mem_nodup db.orders o1 hnd h1
    show (findOrder db.orders o1.id).map _ = _
    rw [hfo1]
    simp [hfail]
  · show findOrder ((((db.orders.filter (fun o =>
        o.user_id == uid && o.status == OrderStatus.payment_authorized)).map
        (fun o => o.id)).foldl (captureOrderPayment now cr)
        { db with users := setUserKYC db.users uid KYCStatus.verified ev.session_id }).orders)
        o2.id = _
    rw [findOrder_foldl_capture_mem now cr
      ((db.orders.filter (fun o =>
        o.user_id == uid && o.status == OrderStatus.payment_authorized)).map
        (fun o => o.id))
      { db with users := setUserKYC db.users uid KYCStatus.verified ev.session_id }
      o2.id pi2 hmem2 hids_nodup hpi2]
    have hfo2 : findOrder db.orders o2.id = some o2 :=
      findOrder_of_mem_nodup db.orders o2 hnd h2
    show (findOrder db.orders o2.id).map _ = _
    rw [hfo2]
    simp [hok]

/-- Witness for C2 at a concrete database: the order whose remote
capture fails ends `failed`, the other ends `processing`. -/
theorem C2_capture_per_order_isolation_witness :
    findOrder (handle_verification_session_event 3 crW dbW evW).2.orders 1
        = some { ordW1 with status := OrderStatus.failed }
    ∧ findOrder (handle_verification_session_event 3 crW dbW evW).2.orders 2
        = some { ordW2 with status := OrderStatus.processing } :=
  C2_capture_per_order_isolation 3 crW dbW evW 7 userW ordW1 ordW2 piW1 piW2
    PaymentStatus.succeeded rfl rfl (by decide) (by decide) (by decide)
    (by decide) rfl rfl (by decide) rfl rfl (by decide) (by decide)
    (by decide) rfl

end UltraCivic
